import Mathlib

/-
Verification of the anya-core DAO governance/treasury/wallet modules.
Each definition is a shallow embedding of the corresponding Python
function; nondeterministic inputs (current time, fresh ids, RPC results,
random salts, broadcast outcomes) are passed as explicit parameters.
Bytes are modelled as `Nat` (values < 256), byte strings as `List Nat`,
satoshi amounts as integers.
-/

namespace AnyaCore

/-! ### Proposal creation (src/src/dao/proposal.py) -/

/-- Typed form of the proposal dictionary built by `create_proposal`
(src/src/dao/proposal.py).  `end_time` is optional exactly as in the
source; `status` is the status string stored in the dict. -/
structure Proposal where
  id : String
  proposer : String
  title : String
  description : String
  options : List String
  start_time : Nat
  end_time : Option Nat
  status : String
deriving DecidableEq, Repr

/-- Embedding of `create_proposal` (src/src/dao/proposal.py, lines 9-47).
`now` stands for `int(time.time())` and `newId` for the result of the
unimplemented `generate_unique_proposal_id()`.  The three guards mirror
the Python `raise ValueError(...)` sites in order, including Python
truthiness of the `title`, `description` and `options` arguments. -/
def create_proposal (now : Nat) (newId : String) (proposer title description : String)
    (options : List String) (start_time end_time : Option Nat) : Except String Proposal :=
  let st := start_time.getD now
  if title = "" ∨ description = "" ∨ options = [] then
    Except.error "Title, description, and options are required"
  else if options.length < 2 then
    Except.error "At least two voting options are required"
  else if end_time.any (fun e => decide (e ≤ st)) then
    Except.error "End time must be after start time"
  else
    Except.ok { id := newId, proposer := proposer, title := title,
                description := description, options := options,
                start_time := st, end_time := end_time, status := "active" }

/-- Embedding of `is_proposal_valid` (src/src/dao/proposal.py, lines 49-73).
The required-field presence checks of the Python dict are discharged by
the typed record; the remaining check is the option count. -/
def is_proposal_valid (p : Proposal) : Bool :=
  2 ≤ p.options.length

/-! ### Proposal execution (src/src/dao/executor.py) -/

/-- Error raised by `execute_proposal`; both raise sites of the Python
function raise a plain `ValueError` with the given message.  The module
defines no dedicated already-executed error class. -/
inductive ExecError
  | onlyApproved
  | invalidChain
deriving DecidableEq, Repr

/-- Proposal fields read by the executor (src/src/dao/executor.py):
status, chain, the proposal type dispatched on inside the per-chain
handlers, and the send parameters. -/
structure ExecProposal where
  id : String
  status : String
  chain : String
  ptype : String
  recipient : String
  amount : Nat
deriving DecidableEq, Repr

/-- Decidable equality for `Except`, needed to evaluate executor
outcomes on concrete inputs. -/
instance {ε α : Type} [DecidableEq ε] [DecidableEq α] : DecidableEq (Except ε α) := fun a b =>
  match a, b with
  | Except.ok x, Except.ok y =>
    if h : x = y then Decidable.isTrue (by rw [h])
    else Decidable.isFalse (by intro hc; injection hc; contradiction)
  | Except.error x, Except.error y =>
    if h : x = y then Decidable.isTrue (by rw [h])
    else Decidable.isFalse (by intro hc; injection hc; contradiction)
  | Except.ok _, Except.error _ => Decidable.isFalse (by intro hc; injection hc)
  | Except.error _, Except.ok _ => Decidable.isFalse (by intro hc; injection hc)

/-- Outcome of one executor call: the Python return/raise behaviour,
the number of chain broadcasts attempted during the call, and the
proposal dict as mutated by the call. -/
structure ExecOutcome where
  result : Except ExecError Unit
  broadcasts : Nat
  final : ExecProposal
deriving DecidableEq, Repr

/-- Embedding of `execute_on_bitcoin` (src/src/dao/executor.py, lines
30-57).  `btcTxid` stands for the value returned by
`bitcoin_client.broadcast_transaction`; a `send_bitcoin` proposal always
attempts exactly one broadcast, and the status is set to `executed` only
when a txid came back.  Other proposal types fall through with no
action, as in the source. -/
def execute_on_bitcoin (btcTxid : Option String) (p : ExecProposal) : ExecOutcome :=
  if p.ptype = "send_bitcoin" then
    match btcTxid with
    | some _ => { result := Except.ok (), broadcasts := 1,
                  final := { p with status := "executed" } }
    | none => { result := Except.ok (), broadcasts := 1, final := p }
  else
    { result := Except.ok (), broadcasts := 0, final := p }

/-- Embedding of `execute_on_rsk` (src/src/dao/executor.py, lines 59-101;
the Python text is scrambled/mis-indented, reconstructed from its
fragments): a `call_contract_function` proposal sends one raw
transaction and sets the status to `executed` or `failed` according to
the receipt status `receiptOk`. -/
def execute_on_rsk (receiptOk : Bool) (p : ExecProposal) : ExecOutcome :=
  if p.ptype = "call_contract_function" then
    if receiptOk then
      { result := Except.ok (), broadcasts := 1, final := { p with status := "executed" } }
    else
      { result := Except.ok (), broadcasts := 1, final := { p with status := "failed" } }
  else
    { result := Except.ok (), broadcasts := 0, final := p }

/-- Embedding of `execute_proposal` (src/src/dao/executor.py, lines
12-28).  The single guard rejects any proposal whose status is not
`approved` with the generic `ValueError` (modelled as
`ExecError.onlyApproved`) before any chain dispatch; there is no
membership check and no dedicated already-executed error. -/
def execute_proposal (btcTxid : Option String) (receiptOk : Bool)
    (p : ExecProposal) : ExecOutcome :=
  if p.status ≠ "approved" then
    { result := Except.error ExecError.onlyApproved, broadcasts := 0, final := p }
  else if p.chain = "bitcoin" then execute_on_bitcoin btcTxid p
  else if p.chain = "rsk" then execute_on_rsk receiptOk p
  else { result := Except.error ExecError.invalidChain, broadcasts := 0, final := p }

/-! ### Governance entry points (src/src/dao/governance.py) -/

/-- Errors raised by `submit_proposal` and `vote_on_proposal`
(src/src/dao/governance.py); every raise site is a `ValueError` with the
corresponding message, plus the errors propagated from
`create_proposal`. -/
inductive GovError
  | notMemberSubmit
  | invalidProposal
  | notMemberVote
  | inactiveProposal
  | invalidOption
  | createError (msg : String)
deriving DecidableEq, Repr

/-- Embedding of `submit_proposal` (src/src/dao/governance.py, lines
86-111).  `member` stands for the chain-backed `is_member` predicate,
`txid` for the broadcast result.  Returns the Python return value
together with the number of broadcasts attempted: the membership guard
runs before proposal creation, encoding and broadcasting. -/
def submit_proposal (member : String → Bool) (now : Nat) (newId : String)
    (txid : Option String) (proposer title description : String)
    (options : List String) (start_time end_time : Option Nat) :
    Except GovError (Option String) × Nat :=
  if ¬ member proposer then (Except.error GovError.notMemberSubmit, 0)
  else
    match create_proposal now newId proposer title description options start_time end_time with
    | Except.error msg => (Except.error (GovError.createError msg), 0)
    | Except.ok prop =>
      if ¬ is_proposal_valid prop then (Except.error GovError.invalidProposal, 0)
      else (Except.ok txid, 1)

/-- Embedding of the guard prefix of `vote_on_proposal`
(src/src/dao/governance.py, lines 196-214; the function body is
truncated in the source right after these guards).  `stored` is the
proposal fetched from storage by `get_proposal_by_id`.  The membership
guard runs before the proposal lookup and before any chain action. -/
def vote_on_proposal (member : String → Bool) (stored : Option Proposal)
    (vote_option voter_address : String) : Except GovError Unit :=
  if ¬ member voter_address then Except.error GovError.notMemberVote
  else
    match stored with
    | none => Except.error GovError.inactiveProposal
    | some p =>
      if p.status ≠ "active" then Except.error GovError.inactiveProposal
      else if vote_option ∉ p.options then Except.error GovError.invalidOption
      else Except.ok ()

/-! ### Wallet transaction builder (src/src/wallet/transaction.py) -/

/-- Input candidate dictionary of `create_transaction`: txid, vout and
value keys. -/
structure TxInput where
  txid : String
  vout : Nat
  value : Int
deriving DecidableEq, Repr

/-- Output dictionary of `create_transaction`: address and value keys. -/
structure TxOutput where
  address : String
  value : Int
deriving DecidableEq, Repr

/-- Size estimate from `create_transaction`
(src/src/wallet/transaction.py, line 189):
`148 * len(inputs) + 34 * len(outputs) + 10`. -/
def estimated_tx_size (nIn nOut : Nat) : Int :=
  148 * nIn + 34 * nOut + 10

/-- Embedding of the value/output logic of `create_transaction`
(src/src/wallet/transaction.py, lines 157-211), returning the output
list of the constructed transaction (inputs are appended verbatim and
signing is dispatched afterwards; neither affects the output values).
The function computes `change = total_in - total_out - fee_rate * size`
and appends a change output only when `change > 0`; it contains no
insufficient-funds check and no error path for value shortfalls. -/
def create_transaction (inputs : List TxInput) (outputs : List TxOutput)
    (fee_rate : Int) (change_address : String) : List TxOutput :=
  let total_input_value := (inputs.map TxInput.value).sum
  let total_output_value := (outputs.map TxOutput.value).sum
  let change := total_input_value - total_output_value -
    fee_rate * estimated_tx_size inputs.length outputs.length
  outputs ++ (if change > 0 then [{ address := change_address, value := change }] else [])

/-! ### Encryption (src/src/security/encryption.py and
src/src/wallet/key_management.py) -/

/-- Key produced by `PBKDF2HMAC(...).derive(password)` for a given salt.
The key-derivation function is modelled as the collision-free pairing of
salt and password (PBKDF2 is treated as injective); `salt` stands for
the 16 random bytes from `os.urandom(16)`. -/
structure DerivedKey where
  salt : Nat
  password : String
deriving DecidableEq, Repr

/-- Fernet token: authenticated ciphertext under `key` of `plaintext`.
Fernet decryption with any other key raises `InvalidToken`, which the
model captures by recording the encryption key. -/
structure FernetToken where
  key : DerivedKey
  plaintext : List Nat
deriving DecidableEq, Repr

/-- Model of `Fernet(key).encrypt(data)`. -/
def fernet_encrypt (k : DerivedKey) (data : List Nat) : FernetToken :=
  { key := k, plaintext := data }

/-- Model of `Fernet(key).decrypt(token)`: returns the plaintext only
when the key matches the encryption key, otherwise raises
`InvalidToken` (never returns corrupted plaintext). -/
def fernet_decrypt (k : DerivedKey) (t : FernetToken) : Except String (List Nat) :=
  if t.key = k then Except.ok t.plaintext else Except.error "InvalidToken"

/-- Embedding of `generate_key` (src/src/security/encryption.py, lines
11-30): derives a key from the password and a salt freshly drawn by
`os.urandom(16)` on every call; the salt is not returned or stored. -/
def generate_key (freshSalt : Nat) (password : String) : DerivedKey :=
  { salt := freshSalt, password := password }

/-- Embedding of `encrypt_data` (src/src/security/encryption.py, lines
32-47): encrypts under a key derived with the fresh salt drawn inside
its `generate_key` call. -/
def encrypt_data (freshSalt : Nat) (data : List Nat) (password : String) : FernetToken :=
  fernet_encrypt (generate_key freshSalt password) data

/-- Embedding of `decrypt_data` (src/src/security/encryption.py, lines
49-67): calls `generate_key` again, which draws a new random salt
(`freshSalt` here), and decrypts under that freshly derived key. -/
def decrypt_data (freshSalt : Nat) (t : FernetToken) (password : String) :
    Except String (List Nat) :=
  fernet_decrypt (generate_key freshSalt password) t

/-- Embedding of `encrypt_private_key` (src/src/wallet/key_management.py,
lines 130-142): derives the key from a fresh salt and prepends the salt
to the ciphertext (`salt + encrypted_key`). -/
def encrypt_private_key (salt : Nat) (private_key : List Nat) (password : String) :
    Nat × FernetToken :=
  (salt, fernet_encrypt { salt := salt, password := password } private_key)

/-- Embedding of `decrypt_private_key` (src/src/wallet/key_management.py,
lines 144-161): splits off the stored salt, re-derives the key from it
and the supplied password, and decrypts. -/
def decrypt_private_key (blob : Nat × FernetToken) (password : String) :
    Except String (List Nat) :=
  fernet_decrypt { salt := blob.1, password := password } blob.2

/-! ### Bitcoin client and treasury (src/src/network/bitcoin_client.py,
src/src/dao/treasury_management.py) -/

/-- UTXO dictionary returned by `get_utxos`: txid, vout and value keys. -/
structure Utxo where
  txid : String
  vout : Nat
  value : Nat
deriving DecidableEq, Repr

/-- Embedding of `get_utxos` (src/src/network/bitcoin_client.py, lines
14-29).  `rpc` is the outcome of the `listunspent` RPC call; on any
exception the function swallows the error and returns the empty list. -/
def get_utxos (rpc : Except String (List Utxo)) : List Utxo :=
  match rpc with
  | Except.ok us => us
  | Except.error _ => []

/-- Balance dictionary returned by `get_treasury_balance`. -/
structure TreasuryBalance where
  rbtc : Nat
  satoshi : Nat
deriving DecidableEq, Repr

/-- Embedding of `get_treasury_balance`
(src/src/dao/treasury_management.py, lines 10-32): the bitcoin balance
is the sum of the values of the UTXOs returned by `get_utxos`. -/
def get_treasury_balance (rsk_balance : Nat) (rpc : Except String (List Utxo)) :
    TreasuryBalance :=
  { rbtc := rsk_balance, satoshi := ((get_utxos rpc).map Utxo.value).sum }

/-! ### Treasury allocation (src/main_system.py)

Python computes `calculate_allocations` in IEEE-754 binary64 floats.
The model below is binary64 at full fidelity in the significand: a
float is a dyadic number `m * 2^e` with a 53-bit significand, every
operation computes the exact rational result and rounds it to 53
significant bits with round-to-nearest, ties-to-even.  The exponent is
unbounded (no overflow, infinities or subnormal rounding), which
coincides with IEEE binary64 wherever no overflow or underflow occurs —
as in every evaluation below. -/

/-- Floor of log2 with explicit fuel so the kernel can evaluate it;
`log2fuel f n` equals the bit position of the leading bit of `n` for
every `n < 2^f` with `n ≥ 1`. -/
def log2fuel : Nat → Nat → Nat
  | 0, _ => 0
  | f + 1, n => if n ≤ 1 then 0 else log2fuel f (n / 2) + 1

/-- Round the nonnegative rational `p / q` to the nearest integer,
ties to even. -/
def rheNat (p q : Nat) : Nat :=
  let m := p / q
  let r := p % q
  if 2 * r < q then m
  else if q < 2 * r then m + 1
  else if m % 2 = 0 then m else m + 1

/-- Binary64 value: the dyadic number `m * 2^e`.  Kept in canonical
form (`m` odd, or `m = 0` with `e = 0`) by `F64.norm` so that equal
values have equal representations. -/
structure F64 where
  m : Int
  e : Int
deriving DecidableEq, Repr

/-- Strip factors of two from the significand (fuel-bounded for kernel
evaluation; a rounded significand has fewer than 64 bits). -/
def normFuel : Nat → Int → Int → F64
  | 0, m, e => { m := m, e := e }
  | f + 1, m, e =>
    if m ≠ 0 ∧ m % 2 = 0 then normFuel f (m / 2) (e + 1) else { m := m, e := e }

/-- Canonical form of a dyadic: odd significand, and zero is `⟨0, 0⟩`. -/
def F64.norm (x : F64) : F64 :=
  if x.m = 0 then { m := 0, e := 0 } else normFuel 64 x.m x.e

/-- Round the positive rational `n / d` (`n, d ≥ 1`) to 53 significant
bits, round-to-nearest ties-to-even: find the exponent `e` with
`2^e ≤ n/d < 2^(e+1)`, scale the value into `[2^52, 2^53]`, round the
scaled significand to an integer, and renormalise. -/
def roundPos (n d : Nat) : F64 :=
  let k := log2fuel 4096 n
  let j := log2fuel 4096 d
  let e : Int := if d * 2 ^ k ≤ n * 2 ^ j then (k : Int) - j else (k : Int) - j - 1
  let p := n * 2 ^ (52 - e).toNat
  let q := d * 2 ^ (e - 52).toNat
  F64.norm { m := (rheNat p q : Int), e := e - 52 }

/-- Correctly rounded binary64 value of the rational `num / den`
(zero when `num = 0`; the `den = 0` guard stands in for Python's
`ZeroDivisionError`, unused at the inputs considered here). -/
def roundQ (num den : Int) : F64 :=
  if num = 0 ∨ den = 0 then { m := 0, e := 0 }
  else
    let s : Int := if (decide (num < 0)) = (decide (den < 0)) then 1 else -1
    let f := roundPos num.natAbs den.natAbs
    { m := s * f.m, e := f.e }

/-- Round the exact dyadic `M * 2^e` to binary64. -/
def dyadicRound (M : Int) (e : Int) : F64 :=
  if 0 ≤ e then roundQ (M * 2 ^ e.toNat) 1
  else roundQ M (2 ^ (-e).toNat)

/-- Binary64 addition: exact aligned sum, then one rounding. -/
def fadd (x y : F64) : F64 :=
  let e := if x.e ≤ y.e then x.e else y.e
  dyadicRound (x.m * 2 ^ (x.e - e).toNat + y.m * 2 ^ (y.e - e).toNat) e

/-- Binary64 negation (exact). -/
def fneg (x : F64) : F64 :=
  { m := -x.m, e := x.e }

/-- Binary64 subtraction: exact difference, then one rounding. -/
def fsub (x y : F64) : F64 :=
  fadd x (fneg y)

/-- Binary64 multiplication: exact product, then one rounding. -/
def fmul (x y : F64) : F64 :=
  dyadicRound (x.m * y.m) (x.e + y.e)

/-- Binary64 division: exact rational quotient, then one rounding. -/
def fdiv (x y : F64) : F64 :=
  let e := x.e - y.e
  if 0 ≤ e then roundQ (x.m * 2 ^ e.toNat) y.m
  else roundQ x.m (y.m * 2 ^ (-e).toNat)

/-- Embedding of `calculate_allocations` (src/main_system.py, lines
251-282) in binary64 arithmetic: two derived shares (users, dao), two
fixed-percentage shares (the literals `0.15` and `0.10` enter as their
correctly rounded binary64 values) and the residual `ebita` share
defined as the total minus the other four, every operation rounding as
Python floats do.  The claim's cited `treasury_management.allocate_funds`
is an unimplemented stub; this is the allocation computation of the
repository. -/
def calculate_allocations (optimal_payment profit_margin total_revenue capital_requirement : F64) :
    List (String × F64) :=
  let user_allocation := fmul optimal_payment (fdiv profit_margin total_revenue)
  let dao_allocation := fmul optimal_payment (fdiv capital_requirement total_revenue)
  let developer_allocation := fmul optimal_payment (roundQ 15 100)
  let owner_allocation := fmul optimal_payment (roundQ 10 100)
  let ebita_allocation := fsub optimal_payment
    (fadd (fadd (fadd user_allocation dao_allocation) developer_allocation) owner_allocation)
  [("users", user_allocation), ("dao", dao_allocation),
   ("developers", developer_allocation), ("owner", owner_allocation),
   ("ebita", ebita_allocation)]

/-- Python's `sum(values)` over floats: left fold of binary64 addition
starting from zero. -/
def sum_float (xs : List F64) : F64 :=
  xs.foldl fadd { m := 0, e := 0 }

/-! ### Vote tally (spec §4.3; no tally function exists under src/ —
src/src/dao/governance.py only appends raw votes in `record_vote`) -/

/-- Committed vote as stored by `record_vote`
(src/src/dao/governance.py, lines 46-56), extended with its
chain-canonical position (block height, transaction index) as required
by the spec for ordering duplicate votes. -/
structure Vote where
  voter : String
  voption : String
  weight : Nat
  height : Nat
  tx_index : Nat
deriving DecidableEq, Repr

/-- Chain-canonical strict order on votes: block height, then
transaction index. -/
def canon_lt (v w : Vote) : Bool :=
  decide (v.height < w.height ∨ (v.height = w.height ∧ v.tx_index < w.tx_index))

/-- Modelled from the spec: vote supersession.  The repository has no
tally implementation (only `record_vote`, which appends); per spec §4.3
a vote is superseded when the same voter has a later vote in
chain-canonical order. -/
def superseded_by (v : Vote) (votes : List Vote) : Bool :=
  votes.any (fun w => w.voter == v.voter && canon_lt v w)

/-- Modelled from the spec: the most-recent vote per unique voter
address — the votes of the committed set not superseded by a later vote
of the same voter. -/
def latest_votes (votes : List Vote) : List Vote :=
  votes.filter (fun v => ! superseded_by v votes)

/-- Modelled from the spec: `tally` (spec §4.3) sums, per option, the
weight of the most-recent vote per unique voter address. -/
def tally (votes : List Vote) (opt : String) : Nat :=
  (((latest_votes votes).filter (fun v => v.voption == opt)).map Vote.weight).sum

/-! ### Proposal codec (spec §4.1/§6; `helpers.encode_proposal_data` and
`helpers.decode_proposal_data` are called from
src/src/dao/governance.py but defined nowhere under src/) -/

/-- Big-endian encoding of `n` on `k` bytes (least-significant byte
last). -/
def encBE : Nat → Nat → List Nat
  | 0, _ => []
  | k + 1, n => encBE k (n / 256) ++ [n % 256]

/-- Big-endian decoding of a byte list. -/
def decBE (bs : List Nat) : Nat :=
  bs.foldl (fun acc b => acc * 256 + b) 0

/-- Modelled from the spec: the proposal record carried by the §6 wire
format `[version:1][tag:1][id:var][proposer:var][len+title]
[len+description][option_count:1][options...][start_time:8][end_time:8]`.
Variable-length fields and UTF-8 strings are byte lists. -/
structure CodecProposal where
  id : List Nat
  proposer : List Nat
  tag : Nat
  title : List Nat
  description : List Nat
  options : List (List Nat)
  start_time : Nat
  end_time : Nat
deriving DecidableEq, Repr

/-- Length-prefixed variable field: one length byte, then the bytes. -/
def encVar (bs : List Nat) : List Nat :=
  bs.length :: bs

/-- Modelled from the spec: `encode_proposal_data` (called in
src/src/dao/governance.py line 101 but missing from
src/src/utils/helpers.py), laying out the §6 wire format with one-byte
length prefixes for the variable fields and 8-byte big-endian
timestamps. -/
def encode_proposal_data (p : CodecProposal) : List Nat :=
  1 :: p.tag :: (encVar p.id ++ (encVar p.proposer ++ (encVar p.title ++
    (encVar p.description ++ (p.options.length ::
      ((p.options.map encVar).flatten ++
        (encBE 8 p.start_time ++ encBE 8 p.end_time)))))))

/-- Parse one byte from the stream; fails on a truncated stream. -/
def parseByte : List Nat → Option (Nat × List Nat)
  | [] => none
  | b :: rest => some (b, rest)

/-- Parse exactly `k` bytes from the stream; fails on a truncated
stream. -/
def parseN (k : Nat) (bs : List Nat) : Option (List Nat × List Nat) :=
  if k ≤ bs.length then some (bs.take k, bs.drop k) else none

/-- Parse a length-prefixed variable field. -/
def parseVar (bs : List Nat) : Option (List Nat × List Nat) :=
  match parseByte bs with
  | none => none
  | some (len, rest) => parseN len rest

/-- Parse `n` length-prefixed options. -/
def parseOptionList : Nat → List Nat → Option (List (List Nat) × List Nat)
  | 0, bs => some ([], bs)
  | n + 1, bs =>
    match parseVar bs with
    | none => none
    | some (o, rest) =>
      match parseOptionList n rest with
      | none => none
      | some (os, rest2) => some (o :: os, rest2)

/-- Modelled from the spec: `decode_proposal_data` (called in
src/src/dao/governance.py line 142 but missing from
src/src/utils/helpers.py).  Per spec §4.1 it must reject an unknown
version, truncated fields, an option count below 2, an end time not
after the start time, and trailing bytes. -/
def decode_proposal_data (bs : List Nat) : Option CodecProposal := do
  let (v, r1) ← parseByte bs
  if v ≠ 1 then none else
  let (tag, r2) ← parseByte r1
  let (idBytes, r3) ← parseVar r2
  let (proposer, r4) ← parseVar r3
  let (title, r5) ← parseVar r4
  let (descr, r6) ← parseVar r5
  let (cnt, r7) ← parseByte r6
  if cnt < 2 then none else
  let (options, r8) ← parseOptionList cnt r7
  let (stBytes, r9) ← parseN 8 r8
  let (etBytes, r10) ← parseN 8 r9
  let st := decBE stBytes
  let et := decBE etBytes
  if et ≤ st then none else
  if ¬ r10 = [] then none else
  some { id := idBytes, proposer := proposer, tag := tag, title := title,
         description := descr, options := options, start_time := st,
         end_time := et }

/-- Modelled from the spec: validity of a proposal for the §6 wire
format — every byte is a byte, every variable field and the option list
fit their one-byte length prefix, there are at least two options, the
timestamps fit eight bytes, and the end time is after the start time. -/
def validProposal (p : CodecProposal) : Prop :=
  p.tag < 256 ∧
  p.id.length < 256 ∧ (∀ b ∈ p.id, b < 256) ∧
  p.proposer.length < 256 ∧ (∀ b ∈ p.proposer, b < 256) ∧
  p.title.length < 256 ∧ (∀ b ∈ p.title, b < 256) ∧
  p.description.length < 256 ∧ (∀ b ∈ p.description, b < 256) ∧
  2 ≤ p.options.length ∧ p.options.length < 256 ∧
  (∀ o ∈ p.options, o.length < 256 ∧ ∀ b ∈ o, b < 256) ∧
  p.start_time < 256 ^ 8 ∧ p.end_time < 256 ^ 8 ∧
  p.start_time < p.end_time

instance (p : CodecProposal) : Decidable (validProposal p) := by
  unfold validProposal; infer_instance

/-! ### Concrete sample values for witnesses and counterexamples -/

/-- Boolean error test for `Except`, used to state that a call raises. -/
def exceptIsError {ε α : Type} : Except ε α → Bool
  | Except.error _ => true
  | Except.ok _ => false

/-- Sample proposal in status `executed` (a proposal whose first
execution already succeeded). -/
def pExecuted0 : ExecProposal :=
  { id := "p1", status := "executed", chain := "bitcoin",
    ptype := "send_bitcoin", recipient := "addr1", amount := 5 }

/-- Sample proposal in status `active` (never executed). -/
def pActive0 : ExecProposal :=
  { pExecuted0 with status := "active" }

/-- Sample proposal in status `approved` (ready for execution). -/
def pApproved0 : ExecProposal :=
  { pExecuted0 with status := "approved" }

/-- Sample proposal dict produced by `create_proposal` at time 100. -/
def pCreated0 : Proposal :=
  { id := "p1", proposer := "alice", title := "t", description := "d",
    options := ["yes", "no"], start_time := 100, end_time := none,
    status := "active" }

/-- Sample valid codec proposal. -/
def sampleCodecProposal : CodecProposal :=
  { id := [7], proposer := [1, 2], tag := 0, title := [72, 105],
    description := [68], options := [[89], [78]],
    start_time := 1000, end_time := 2000 }

/-! ### Codec round-trip lemmas -/

theorem encBE_length (k n : Nat) : (encBE k n).length = k := by
  induction k generalizing n with
  | zero => rfl
  | succ k ih => simp [encBE, ih]

theorem decBE_encBE (k n : Nat) (h : n < 256 ^ k) : decBE (encBE k n) = n := by
  induction k generalizing n with
  | zero =>
    simp only [pow_zero, Nat.lt_one_iff] at h
    simp [encBE, decBE, h]
  | succ k ih =>
    have h' : n / 256 < 256 ^ k := by
      rw [Nat.div_lt_iff_lt_mul (by norm_num)]
      calc n < 256 ^ (k + 1) := h
        _ = 256 ^ k * 256 := by ring
    have hk := ih (n / 256) h'
    simp only [decBE] at hk ⊢
    simp only [encBE, List.foldl_append, List.foldl_cons, List.foldl_nil, hk]
    omega

theorem parseN_append (xs rest : List Nat) : parseN xs.length (xs ++ rest) = some (xs, rest) := by
  simp [parseN, List.take_left, List.drop_left]

theorem parseVar_encVar (xs rest : List Nat) : parseVar (encVar xs ++ rest) = some (xs, rest) := by
  simp [parseVar, encVar, parseByte, List.cons_append, parseN_append]

theorem parseOptionList_flatten (os : List (List Nat)) (rest : List Nat) :
    parseOptionList os.length ((os.map encVar).flatten ++ rest) = some (os, rest) := by
  induction os with
  | nil => simp [parseOptionList]
  | cons o os ih =>
    simp [parseOptionList, List.append_assoc, parseVar_encVar, ih]

theorem parseN_encBE (n : Nat) (rest : List Nat) :
    parseN 8 (encBE 8 n ++ rest) = some (encBE 8 n, rest) := by
  have h := parseN_append (encBE 8 n) rest
  rwa [encBE_length] at h

theorem parseN_encBE_nil (n : Nat) : parseN 8 (encBE 8 n) = some (encBE 8 n, []) := by
  have h := parseN_encBE n []
  rwa [List.append_nil] at h

/-- C1: for every valid proposal p, decoding the ProposalCodec encoding
of p yields p again: decode(encode(p)) = some p. -/
theorem C1_decode_encode_roundtrip (p : CodecProposal) (h : validProposal p) :
    decode_proposal_data (encode_proposal_data p) = some p := by
  obtain ⟨-, -, -, -, -, -, -, -, -, hcnt2, -, -, hst, het, hlt⟩ := h
  simp only [encode_proposal_data, decode_proposal_data, parseByte, List.cons_append,
    Option.bind_eq_bind, Option.some_bind, parseVar_encVar, parseOptionList_flatten,
    parseN_encBE, parseN_encBE_nil, decBE_encBE 8 p.start_time hst,
    decBE_encBE 8 p.end_time het, ne_eq, not_true_eq_false, if_false,
    Nat.not_lt.mpr hcnt2, Nat.not_le.mpr hlt, not_false_eq_true]

/-- C1 witness: the sample proposal is valid and round-trips. -/
theorem C1_decode_encode_roundtrip_witness :
    validProposal sampleCodecProposal ∧
    decode_proposal_data (encode_proposal_data sampleCodecProposal) =
      some sampleCodecProposal :=
  ⟨by decide, C1_decode_encode_roundtrip sampleCodecProposal (by decide)⟩

set_option maxRecDepth 1000000 in
/-- C2: the binary64 allocation computation does not sum to the total.
At total `3.0` (`⟨3, 0⟩`, nonnegative), profit margin `2.0^54`, total
revenue `1.0` (nonzero, so the policy is in-hypothesis), capital
requirement `0.0`, the users share is `3 * 2^54`, the `0.45` and `0.3`
shares vanish in the additions (half an ulp at that magnitude is 4),
the residual `ebita` share rounds to `-3 * 2^54`, and the values sum
to `0.0` rather than `3.0`: the rounding remainder is silently
dropped, contradicting the claimed exact-sum invariant. -/
theorem C2_float_allocations_drop_residual :
    sum_float ((calculate_allocations { m := 3, e := 0 } { m := 1, e := 54 }
        { m := 1, e := 0 } { m := 0, e := 0 }).map Prod.snd) = { m := 0, e := 0 } ∧
    ({ m := 3, e := 0 } : F64) ≠ { m := 0, e := 0 } := by
  exact ⟨by decide, by decide⟩

/-- C3 counterexample: executing an already-executed proposal fails
with the generic `ValueError` guard (`ExecError.onlyApproved`,
message "Only approved proposals can be executed") — the very same
error produced for a never-executed `active` proposal — so the failure
is not a dedicated `AlreadyExecutedError`; no such error exists in
src/src/dao/executor.py. -/
theorem C3_no_already_executed_error :
    execute_proposal (some "txid1") true pExecuted0 =
      { result := Except.error ExecError.onlyApproved, broadcasts := 0,
        final := pExecuted0 } ∧
    execute_proposal (some "txid1") true pActive0 =
      { result := Except.error ExecError.onlyApproved, broadcasts := 0,
        final := pActive0 } := by
  exact ⟨by decide, by decide⟩

/-- C3 (amended): executing an approved bitcoin send proposal
broadcasts once and marks it `executed`; a second execution fails with
the generic guard `ValueError` ("Only approved proposals can be
executed", not a dedicated `AlreadyExecutedError`), attempts no
broadcast, and leaves the proposal unchanged, so the first execution's
broadcast is unaffected. -/
theorem C3_double_execution_rejected (receiptOk : Bool) (txid : String)
    (p : ExecProposal) (h1 : p.status = "approved") (h2 : p.chain = "bitcoin")
    (h3 : p.ptype = "send_bitcoin") :
    (execute_proposal (some txid) receiptOk p).broadcasts = 1 ∧
    (execute_proposal (some txid) receiptOk p).final.status = "executed" ∧
    execute_proposal (some txid) receiptOk
        (execute_proposal (some txid) receiptOk p).final =
      { result := Except.error ExecError.onlyApproved, broadcasts := 0,
        final := (execute_proposal (some txid) receiptOk p).final } := by
  have hne : ("executed" : String) ≠ "approved" := by decide
  simp [execute_proposal, execute_on_bitcoin, h1, h2, h3, hne]

/-- C3 witness: the double-execution scenario at the sample approved
proposal. -/
theorem C3_double_execution_rejected_witness :
    (execute_proposal (some "txid1") true pApproved0).broadcasts = 1 ∧
    (execute_proposal (some "txid1") true pApproved0).final.status = "executed" ∧
    execute_proposal (some "txid1") true
        (execute_proposal (some "txid1") true pApproved0).final =
      { result := Except.error ExecError.onlyApproved, broadcasts := 0,
        final := (execute_proposal (some "txid1") true pApproved0).final } :=
  C3_double_execution_rejected true "txid1" pApproved0 rfl rfl rfl

/-- C4: `create_transaction` performs no insufficient-funds check: on
an input set worth 1000 against outputs worth 2000 plus the estimated
fee, it raises nothing and still returns a built transaction (the
requested outputs, with no change output), contradicting the claimed
`InsufficientFundsError`. -/
theorem C4_insufficient_funds_builds_anyway :
    ((1000 : Int) < 2000 + 1 * estimated_tx_size 1 1) ∧
    create_transaction [{ txid := "aa", vout := 0, value := 1000 }]
        [{ address := "addr1", value := 2000 }] 1 "chg" =
      [{ address := "addr1", value := 2000 }] := by
  exact ⟨by decide, by decide⟩

/-- C6: the at-rest encryption of src/src/security/encryption.py cannot
be reversed even with the correct password, because `decrypt_data`
re-derives its key from a fresh random salt (draw 1) instead of the
salt used at encryption (draw 0), so decryption raises `InvalidToken`;
the salt-prepending pair in src/src/wallet/key_management.py does
round-trip, and a wrong password there raises instead of returning
corrupted plaintext. -/
theorem C6_fresh_salt_decrypt_fails :
    decrypt_data 1 (encrypt_data 0 [42] "pw") "pw" = Except.error "InvalidToken" ∧
    decrypt_private_key (encrypt_private_key 0 [42] "pw") "pw" = Except.ok [42] ∧
    decrypt_private_key (encrypt_private_key 0 [42] "pw") "wrong" =
      Except.error "InvalidToken" := by
  exact ⟨by decide, by decide, by decide⟩

/-- C7 counterexample: `execute_proposal` takes no caller and performs
no membership check at all — executing an approved proposal succeeds
and broadcasts regardless of any `is_member` outcome, so execution is
not gated by an authorization error for non-members. -/
theorem C7_execute_not_membership_gated :
    (execute_proposal (some "txid1") true pApproved0).result = Except.ok () ∧
    (execute_proposal (some "txid1") true pApproved0).broadcasts = 1 := by
  exact ⟨by decide, by decide⟩

/-- C7 (amended): `is_member` gates submission and voting — a
non-member's `submit_proposal` and `vote_on_proposal` fail with the
membership `ValueError` before any broadcast — but `execute_proposal`
performs no membership check and broadcasts an approved proposal
unconditionally. -/
theorem C7_member_gate_submit_vote_only (member : String → Bool) (now : Nat)
    (newId : String) (txid : Option String) (proposer title description : String)
    (options : List String) (start_time end_time : Option Nat)
    (stored : Option Proposal) (vote_option voter : String)
    (p : ExecProposal) (btcTxid : String) (receiptOk : Bool)
    (hm1 : member proposer = false) (hm2 : member voter = false)
    (h1 : p.status = "approved") (h2 : p.chain = "bitcoin")
    (h3 : p.ptype = "send_bitcoin") :
    submit_proposal member now newId txid proposer title description options
        start_time end_time = (Except.error GovError.notMemberSubmit, 0) ∧
    vote_on_proposal member stored vote_option voter =
      Except.error GovError.notMemberVote ∧
    (execute_proposal (some btcTxid) receiptOk p).broadcasts = 1 := by
  refine ⟨?_, ?_, ?_⟩
  · simp [submit_proposal, hm1]
  · simp [vote_on_proposal, hm2]
  · simp [execute_proposal, execute_on_bitcoin, h1, h2, h3]

/-- C7 witness: the member gate at a membership function that admits
nobody, with the sample approved proposal. -/
theorem C7_member_gate_submit_vote_only_witness :
    submit_proposal (fun _ => false) 100 "p9" (some "tx") "alice" "t" "d"
        ["yes", "no"] none none = (Except.error GovError.notMemberSubmit, 0) ∧
    vote_on_proposal (fun _ => false) (some pCreated0) "yes" "bob" =
      Except.error GovError.notMemberVote ∧
    (execute_proposal (some "txid1") true pApproved0).broadcasts = 1 :=
  C7_member_gate_submit_vote_only (fun _ => false) 100 "p9" (some "tx") "alice"
    "t" "d" ["yes", "no"] none none (some pCreated0) "yes" "bob" pApproved0
    "txid1" true rfl rfl rfl rfl rfl

/-- C8: creating a proposal with fewer than two options, or with an end
time not strictly after the (effective) start time, fails with a
`ValueError` and produces no proposal object. -/
theorem C8_create_proposal_validation (now : Nat)
    (newId proposer title description : String) (options : List String)
    (start_time end_time : Option Nat)
    (h : options.length < 2 ∨ ∃ e, end_time = some e ∧ e ≤ start_time.getD now) :
    exceptIsError (create_proposal now newId proposer title description options
      start_time end_time) = true := by
  simp only [create_proposal]
  split_ifs with h1 h2 h3
  · rfl
  · rfl
  · rfl
  · exfalso
    rcases h with hlen | ⟨e, he, hle⟩
    · exact h2 hlen
    · apply h3
      subst he
      simp [Option.any, hle]

/-- C8 witness: a single-option proposal is rejected. -/
theorem C8_create_proposal_validation_witness :
    exceptIsError (create_proposal 50 "id1" "alice" "t" "d" ["a"] none none) = true :=
  C8_create_proposal_validation 50 "id1" "alice" "t" "d" ["a"] none none
    (Or.inl (by decide))

/-- C9 counterexample: a freshly created proposal has status
`"active"`, not `Draft` — src/src/dao/proposal.py initialises the
status field to `'active'` directly, so the state machine never visits
a Draft state. -/
theorem C9_fresh_status_not_draft :
    create_proposal 100 "p1" "alice" "t" "d" ["yes", "no"] none none =
      Except.ok pCreated0 ∧
    pCreated0.status = "active" ∧ ("active" : String) ≠ "draft" := by
  exact ⟨by decide, by decide, by decide⟩

/-- C9 (amended): every proposal enters the status state machine at
`active` — whenever `create_proposal` returns a proposal object, its
status, before any transition, is `"active"`. -/
theorem C9_initial_status_is_active (now : Nat)
    (newId proposer title description : String) (options : List String)
    (start_time end_time : Option Nat) (p : Proposal)
    (h : create_proposal now newId proposer title description options
      start_time end_time = Except.ok p) :
    p.status = "active" := by
  simp only [create_proposal] at h
  split_ifs at h
  all_goals first
    | exact Except.noConfusion h
    | (injection h with h'; rw [← h'])

/-- C9 witness: the freshly created sample proposal has status
`"active"`. -/
theorem C9_initial_status_is_active_witness : pCreated0.status = "active" :=
  C9_initial_status_is_active 100 "p1" "alice" "t" "d" ["yes", "no"] none none
    pCreated0 (by decide)

/-- C10: when the `listunspent` RPC call fails, `get_utxos` swallows
the error and returns the empty list, so `get_treasury_balance` reports
a bitcoin balance of 0 satoshi instead of signalling chain
unavailability. -/
theorem C10_rpc_failure_zero_balance (e : String) (rsk_balance : Nat) :
    get_utxos (Except.error e) = [] ∧
    (get_treasury_balance rsk_balance (Except.error e)).satoshi = 0 :=
  ⟨rfl, rfl⟩

/-! ### Tally supersession lemmas -/

theorem canon_lt_irrefl (v : Vote) : canon_lt v v = false := by
  simp [canon_lt]

theorem canon_lt_trans {a b c : Vote} (h1 : canon_lt a b = true)
    (h2 : canon_lt b c = true) : canon_lt a c = true := by
  simp only [canon_lt, decide_eq_true_eq] at h1 h2 ⊢
  omega

theorem superseded_by_self_cons (v1 v2 : Vote) (votes : List Vote)
    (hv : v1.voter = v2.voter) (hlt : canon_lt v1 v2 = true) (hmem : v2 ∈ votes) :
    superseded_by v1 (v1 :: votes) = true := by
  simp only [superseded_by, List.any_cons, Bool.or_eq_true, List.any_eq_true]
  right
  exact ⟨v2, hmem, by simp [hv, hlt]⟩

theorem superseded_by_cons_eq (v1 v2 w : Vote) (votes : List Vote)
    (hv : v1.voter = v2.voter) (hlt : canon_lt v1 v2 = true) (hmem : v2 ∈ votes) :
    superseded_by w (v1 :: votes) = superseded_by w votes := by
  simp only [superseded_by, List.any_cons]
  cases hcase : (v1.voter == w.voter && canon_lt w v1) with
  | false => simp
  | true =>
    rw [Bool.and_eq_true, beq_iff_eq] at hcase
    obtain ⟨he, hc⟩ := hcase
    have hany : votes.any (fun x => x.voter == w.voter && canon_lt w x) = true := by
      rw [List.any_eq_true]
      refine ⟨v2, hmem, ?_⟩
      rw [Bool.and_eq_true, beq_iff_eq]
      exact ⟨hv ▸ he, canon_lt_trans hc hlt⟩
    simp [hany]

/-- C5: the tally counts, per unique voter address, only the weight of
that voter's most recent vote in chain-canonical order — prepending an
earlier duplicate vote by a voter whose later vote is already in the
committed set leaves every option's tally unchanged (the earlier vote
is superseded, never summed). -/
theorem C5_earlier_duplicate_superseded (v1 v2 : Vote) (votes : List Vote)
    (opt : String) (hv : v1.voter = v2.voter) (hlt : canon_lt v1 v2 = true)
    (hmem : v2 ∈ votes) :
    tally (v1 :: votes) opt = tally votes opt := by
  have hself := superseded_by_self_cons v1 v2 votes hv hlt hmem
  have hfilter : latest_votes (v1 :: votes) = latest_votes votes := by
    unfold latest_votes
    rw [List.filter_cons]
    simp only [hself, Bool.not_true, if_false]
    exact List.filter_congr fun w hw => by
      rw [superseded_by_cons_eq v1 v2 w votes hv hlt hmem]
  unfold tally
  rw [hfilter]

/-- C5 witness: with votes A→Yes weight 10 and B→No weight 5 committed,
prepending an earlier superseded vote by A does not change the tally,
and the tally is Yes ↦ 10, No ↦ 5 as in the spec scenario. -/
theorem C5_earlier_duplicate_superseded_witness :
    (tally [{ voter := "A", voption := "No", weight := 7, height := 1, tx_index := 0 },
            { voter := "A", voption := "Yes", weight := 10, height := 2, tx_index := 0 },
            { voter := "B", voption := "No", weight := 5, height := 3, tx_index := 0 }] "Yes" =
      tally [{ voter := "A", voption := "Yes", weight := 10, height := 2, tx_index := 0 },
             { voter := "B", voption := "No", weight := 5, height := 3, tx_index := 0 }] "Yes") ∧
    tally [{ voter := "A", voption := "Yes", weight := 10, height := 2, tx_index := 0 },
           { voter := "B", voption := "No", weight := 5, height := 3, tx_index := 0 }] "Yes" = 10 ∧
    tally [{ voter := "A", voption := "Yes", weight := 10, height := 2, tx_index := 0 },
           { voter := "B", voption := "No", weight := 5, height := 3, tx_index := 0 }] "No" = 5 :=
  ⟨C5_earlier_duplicate_superseded
      { voter := "A", voption := "No", weight := 7, height := 1, tx_index := 0 }
      { voter := "A", voption := "Yes", weight := 10, height := 2, tx_index := 0 }
      [{ voter := "A", voption := "Yes", weight := 10, height := 2, tx_index := 0 },
       { voter := "B", voption := "No", weight := 5, height := 3, tx_index := 0 }]
      "Yes" rfl (by decide) (by decide),
    by decide, by decide⟩

end AnyaCore
